import Mathlib

/-!
# Loki Terminal: a shallow embedding of `loki-terminal.c`

The program is a thin host over GTK 4 and VTE.  Each function of the C file is
embedded as a Lean function over an explicit `World`:

* the process environment (`environ`), as name/value pairs;
* a heap of GLib allocations, keyed by address, in which a load, store or
  free of an address that is not live is a fault (`none`);
* the sequence of toolkit calls issued so far (`calls`), with their arguments;
* the text written to standard error;
* the addresses released so far (`freed`).

Toolkit objects and heap blocks are addresses (`Nat`); `0` is `NULL`.
Functions of GLib, GTK, VTE and Pango are outside the repository; they are
modelled by the effect the C file relies on (a recorded call, a fresh object,
an allocation) and carry the C name.
-/

set_option linter.unusedVariables false

namespace LokiTerminal

/-! ## Data model -/

/-- Functions of `loki-terminal.c` whose address is handed to the toolkit. -/
inductive Callback
  | on_child_exited
  | copy_text
  | paste_text
  | spawn_callback
  | activate
  deriving DecidableEq, Repr

/-- A colour as `gdk_rgba_parse` yields it for an opaque colour: the three
channels, each as the numerator over 255. -/
structure GdkRGBA where
  red : Nat
  green : Nat
  blue : Nat
  deriving DecidableEq, Repr

/-- Heap blocks the program allocates or reads. -/
inductive Obj
  /-- a NUL-terminated string (`gchar *`) -/
  | cstr (s : String)
  /-- an array of pointers (`gchar **`); a cell holding `0` is `NULL` -/
  | ptrArray (cells : List Nat)
  /-- the `SpawnData` record: `window`, `argv`, `envp` -/
  | spawnData (window argv envp : Nat)
  /-- a `GError`, reduced to its `message` -/
  | gerror (message : String)
  deriving DecidableEq, Repr

/-- `VTE_PTY_DEFAULT` of vte's `VtePtyFlags`. -/
def VTE_PTY_DEFAULT : Nat := 0

/-- `G_SPAWN_SEARCH_PATH` of GLib's `GSpawnFlags` (`1 << 2`). -/
def G_SPAWN_SEARCH_PATH : Nat := 4

/-- `VTE_FORMAT_TEXT` of vte's `VteFormat`. -/
def VTE_FORMAT_TEXT : Nat := 1

/-- `GTK_ORIENTATION_VERTICAL` of GTK's `GtkOrientation`. -/
def GTK_ORIENTATION_VERTICAL : Nat := 1

/-- `G_APPLICATION_DEFAULT_FLAGS` of GIO's `GApplicationFlags`. -/
def G_APPLICATION_DEFAULT_FLAGS : Nat := 0

/-- One call into the toolkit, with its arguments in the C order; `ret` is
the object the call returned. -/
inductive Call
  | gtk_application_new (application_id : String) (flags : Nat) (ret : Nat)
  | g_application_run (application : Nat) (argc : Int) (argv : List String)
  | g_object_unref (object : Nat)
  | gtk_application_window_new (application : Nat) (ret : Nat)
  | gtk_window_set_title (window : Nat) (title : String)
  | gtk_window_set_default_size (window : Nat) (width height : Int)
  | gtk_box_new (orientation : Nat) (spacing : Int) (ret : Nat)
  | gtk_window_set_child (window child : Nat)
  | gtk_scrolled_window_new (ret : Nat)
  | gtk_widget_set_vexpand (widget : Nat) (expand : Bool)
  | gtk_box_append (box child : Nat)
  | vte_terminal_new (ret : Nat)
  | gtk_scrolled_window_set_child (scrolled_window child : Nat)
  | pango_font_description_from_string (str : String) (ret : Nat)
  | vte_terminal_set_font (terminal font_desc : Nat)
  | pango_font_description_free (desc : Nat)
  | vte_terminal_set_scrollback_lines (terminal : Nat) (lines : Int)
  | vte_terminal_set_mouse_autohide (terminal : Nat) (setting : Bool)
  | vte_terminal_set_colors (terminal : Nat) (foreground background : Option GdkRGBA)
      (palette : List (Option GdkRGBA)) (palette_size : Nat)
  | g_signal_connect (inst : Nat) (detailed_signal : String) (c_handler : Callback)
      (data : Nat)
  | g_simple_action_new (name : String) (parameter_type : Option String) (ret : Nat)
  | g_action_map_add_action (action_map action : Nat)
  | gtk_application_set_accels_for_action (application : Nat)
      (detailed_action_name : String) (accels : List String)
  | gtk_window_present (window : Nat)
  | vte_terminal_spawn_async (terminal : Nat) (pty_flags : Nat)
      (working_directory : String) (argv envv : Nat) (spawn_flags : Nat)
      (child_setup : Option Callback) (child_setup_data : Nat)
      (child_setup_data_destroy : Option Callback) (timeout : Int) (cancellable : Nat)
      (callback : Option Callback) (user_data : Nat)
  | gtk_window_close (window : Nat)
  | vte_terminal_copy_clipboard_format (terminal : Nat) (format : Nat)
  | vte_terminal_paste_clipboard (terminal : Nat)
  deriving DecidableEq, Repr

/-- The state the program runs in. -/
structure World where
  /-- the process environment, one name/value pair per `NAME=value` entry -/
  environ : List (String × String)
  /-- what `g_get_home_dir` returns -/
  home : String
  /-- the highest address handed out so far; the next one is `last + 1` -/
  last : Nat
  /-- the live heap blocks, most recent first -/
  heap : List (Nat × Obj)
  /-- the toolkit calls issued so far, oldest first -/
  calls : List Call
  /-- the text written to standard error so far -/
  stderr : String
  /-- the addresses released with `g_free` so far, oldest first -/
  freed : List Nat
  deriving DecidableEq, Repr

/-! ## Heap -/

/-- Read the block at address `p`; `none` when `p` is not live. -/
def heapLoad : List (Nat × Obj) → Nat → Option Obj
  | [], _ => none
  | (q, x) :: h, p => if q = p then some x else heapLoad h p

/-- Overwrite the block at address `p`; `none` when `p` is not live. -/
def heapStore : List (Nat × Obj) → Nat → Obj → Option (List (Nat × Obj))
  | [], _, _ => none
  | (q, x) :: h, p, o =>
    if q = p then some ((p, o) :: h) else (heapStore h p o).map (fun r => (q, x) :: r)

/-- Release the block at address `p`; `none` when `p` is not live. -/
def heapFree : List (Nat × Obj) → Nat → Option (List (Nat × Obj))
  | [], _ => none
  | (q, x) :: h, p =>
    if q = p then some h else (heapFree h p).map (fun r => (q, x) :: r)

/-- A GLib allocation: a fresh non-null address holding `o`. -/
def alloc (o : Obj) (w : World) : Nat × World :=
  (w.last + 1, { w with last := w.last + 1, heap := (w.last + 1, o) :: w.heap })

/-- Read through a pointer. -/
def load (p : Nat) (w : World) : Option Obj := heapLoad w.heap p

/-- Write through a pointer. -/
def store (p : Nat) (o : Obj) (w : World) : Option World :=
  (heapStore w.heap p o).map (fun h => { w with heap := h })

/-- `g_free`: no effect on `NULL`, otherwise the block must be live. -/
def g_free (mem : Nat) (w : World) : Option World :=
  if mem = 0 then some w
  else (heapFree w.heap mem).map (fun h => { w with heap := h, freed := w.freed ++ [mem] })

/-- The loop of `g_strfreev`: `for (i = 0; str_array[i] != NULL; i++)
g_free (str_array[i])`, over the cells of the array; running past the last
cell without meeting `NULL` is a fault. -/
def freeEach : List Nat → World → Option World
  | [], _ => none
  | p :: ps, w => if p = 0 then some w else (g_free p w).bind (freeEach ps)

/-- `g_strfreev`: no effect on `NULL`; otherwise every string up to the
`NULL` terminator is freed, then the array. -/
def g_strfreev (str_array : Nat) (w : World) : Option World :=
  if str_array = 0 then some w
  else
    match load str_array w with
    | some (Obj.ptrArray cells) => (freeEach cells w).bind (g_free str_array)
    | _ => none

/-- `g_strdup`: a fresh copy of a string. -/
def g_strdup (str : String) (w : World) : Nat × World := alloc (Obj.cstr str) w

/-- Copy each string of a list to the heap, in order. -/
def dupEach : List String → World → List Nat × World
  | [], w => ([], w)
  | s :: ss, w =>
    let r := g_strdup s w
    let rs := dupEach ss r.2
    (r.1 :: rs.1, rs.2)

/-! ## Environment -/

/-- `g_getenv`: the value of the first entry with that name. -/
def g_getenv (name : String) (w : World) : Option String :=
  List.lookup name w.environ

/-- The list update behind `setenv`: the first entry with the name is
replaced when `overwrite` is set, and a new entry is appended when there is
none. -/
def setenvList : List (String × String) → String → String → Bool → List (String × String)
  | [], n, v, _ => [(n, v)]
  | (m, x) :: es, n, v, ow =>
    if m = n then (if ow then (n, v) :: es else (m, x) :: es)
    else (m, x) :: setenvList es n v ow

/-- `g_setenv`. -/
def g_setenv (name value : String) (overwrite : Bool) (w : World) : World :=
  { w with environ := setenvList w.environ name value overwrite }

/-- The `NAME=value` string of an environment entry. -/
def envEntry (e : String × String) : String := e.1 ++ "=" ++ e.2

/-- `g_get_environ`: a freshly allocated, `NULL`-terminated copy of the
environment, one `NAME=value` string per entry. -/
def g_get_environ (w : World) : Nat × World :=
  let r := dupEach (w.environ.map envEntry) w
  alloc (Obj.ptrArray (r.1 ++ [0])) r.2

/-- `g_get_home_dir`. -/
def g_get_home_dir (w : World) : String := w.home

/-! ## Toolkit calls -/

/-- Record a toolkit call. -/
def call (c : Call) (w : World) : World := { w with calls := w.calls ++ [c] }

/-- A toolkit constructor: a fresh object, and the call that made it. -/
def construct (mk : Nat → Call) (w : World) : Nat × World :=
  (w.last + 1, { w with last := w.last + 1, calls := w.calls ++ [mk (w.last + 1)] })

/-- `fprintf (stderr, ...)` with the formatted text. -/
def fprintf_stderr (text : String) (w : World) : World :=
  { w with stderr := w.stderr ++ text }

/-- `gdk_rgba_parse (&rgba, spec)`: on success the colour is written to
`rgba`; on failure `rgba` keeps what it held (`none`: never written).  The
parser itself belongs to GDK and is the parameter `parse`. -/
def gdk_rgba_parse (parse : String → Option GdkRGBA) (rgba : Option GdkRGBA)
    (spec : String) : Option GdkRGBA :=
  match parse spec with
  | some c => some c
  | none => rgba

/-! ## The program -/

/-- Model of `on_child_exited` (lines 10-13). -/
def on_child_exited (terminal : Nat) (status : Int) (user_data : Nat) (w : World) : World :=
  let window := user_data
  call (Call.gtk_window_close window) w

/-- Model of `copy_text` (lines 15-18). -/
def copy_text (action parameter user_data : Nat) (w : World) : World :=
  let terminal := user_data
  call (Call.vte_terminal_copy_clipboard_format terminal VTE_FORMAT_TEXT) w

/-- Model of `paste_text` (lines 20-23). -/
def paste_text (action parameter user_data : Nat) (w : World) : World :=
  let terminal := user_data
  call (Call.vte_terminal_paste_clipboard terminal) w

/-- The array `palette_colors` of `setup_terminal_colors`. -/
def palette_colors : List String :=
  ["#073642", "#dc322f", "#859900", "#b58900",
   "#268bd2", "#d33682", "#2aa198", "#eee8d5",
   "#002b36", "#cb4b16", "#586e75", "#657b83",
   "#839496", "#6c71c4", "#93a1a1", "#fdf6e3"]

/-- Model of `setup_terminal_colors` (lines 25-44).  The locals `fg`, `bg`
and `palette[16]` start unwritten; the loop runs `i` from 0 to 15. -/
def setup_terminal_colors (parse : String → Option GdkRGBA) (terminal : Nat)
    (w : World) : World :=
  let fg := gdk_rgba_parse parse none "#839496"
  let bg := gdk_rgba_parse parse none "#002b36"
  let palette := (List.range 16).foldl
    (fun pal i => pal.set i (gdk_rgba_parse parse (pal.getD i none) (palette_colors.getD i "")))
    (List.replicate 16 none)
  call (Call.vte_terminal_set_colors terminal fg bg palette 16) w

/-- Read `data->window`. -/
def SpawnData_window (data : Nat) (w : World) : Option Nat :=
  match load data w with
  | some (Obj.spawnData window _ _) => some window
  | _ => none

/-- Read `data->argv`. -/
def SpawnData_argv (data : Nat) (w : World) : Option Nat :=
  match load data w with
  | some (Obj.spawnData _ argv _) => some argv
  | _ => none

/-- Read `data->envp`. -/
def SpawnData_envp (data : Nat) (w : World) : Option Nat :=
  match load data w with
  | some (Obj.spawnData _ _ envp) => some envp
  | _ => none

/-- Read `error->message`. -/
def GError_message (error : Nat) (w : World) : Option String :=
  match load error w with
  | some (Obj.gerror message) => some message
  | _ => none

/-- Model of `spawn_callback` (lines 52-65). -/
def spawn_callback (terminal : Nat) (pid : Int) (error : Nat) (user_data : Nat)
    (w : World) : Option World :=
  let data := user_data
  (if error ≠ 0 then
    (GError_message error w).bind fun message =>
    let w1 := fprintf_stderr ("Failed to spawn shell: " ++ message ++ "\n") w
    (SpawnData_window data w1).bind fun window =>
    some (call (Call.gtk_window_close window) w1)
  else some w).bind fun w2 =>
  (SpawnData_argv data w2).bind fun argv =>
  (g_strfreev argv w2).bind fun w3 =>
  (SpawnData_envp data w3).bind fun envp =>
  (g_strfreev envp w3).bind fun w4 =>
  g_free data w4

/-- Assign `data->window`. -/
def set_SpawnData_window (data value : Nat) (w : World) : Option World :=
  match load data w with
  | some (Obj.spawnData _ argv envp) => store data (Obj.spawnData value argv envp) w
  | _ => none

/-- Assign `data->argv`. -/
def set_SpawnData_argv (data value : Nat) (w : World) : Option World :=
  match load data w with
  | some (Obj.spawnData window _ envp) => store data (Obj.spawnData window value envp) w
  | _ => none

/-- Assign `data->envp`. -/
def set_SpawnData_envp (data value : Nat) (w : World) : Option World :=
  match load data w with
  | some (Obj.spawnData window argv _) => store data (Obj.spawnData window argv value) w
  | _ => none

/-- Assign cell `i` of a pointer array; a cell outside the array is a fault. -/
def set_cell (array i value : Nat) (w : World) : Option World :=
  match load array w with
  | some (Obj.ptrArray cells) =>
    if i < cells.length then store array (Obj.ptrArray (cells.set i value)) w else none
  | _ => none

/-- Model of `spawn_shell` (lines 67-95). -/
def spawn_shell (terminal window : Nat) (w : World) : Option World :=
  let shell := match g_getenv "SHELL" w with
    | some s => s
    | none => "/bin/bash"
  let r1 := alloc (Obj.spawnData 0 0 0) w
  let data := r1.1
  (set_SpawnData_window data window r1.2).bind fun w2 =>
  let r3 := alloc (Obj.ptrArray (List.replicate 2 0)) w2
  (set_SpawnData_argv data r3.1 r3.2).bind fun w4 =>
  let r5 := g_strdup shell w4
  (SpawnData_argv data r5.2).bind fun argv0 =>
  (set_cell argv0 0 r5.1 r5.2).bind fun w6 =>
  (SpawnData_argv data w6).bind fun argv1 =>
  (set_cell argv1 1 0 w6).bind fun w7 =>
  let r8 := g_get_environ w7
  (set_SpawnData_envp data r8.1 r8.2).bind fun w9 =>
  (SpawnData_argv data w9).bind fun argv =>
  (SpawnData_envp data w9).bind fun envp =>
  some (call (Call.vte_terminal_spawn_async terminal VTE_PTY_DEFAULT (g_get_home_dir w9)
    argv envp G_SPAWN_SEARCH_PATH none 0 none (-1) 0 (some Callback.spawn_callback) data) w9)

/-- Model of `activate` (lines 97-151). -/
def activate (parse : String → Option GdkRGBA) (app user_data : Nat) (w : World) :
    Option World :=
  let r1 := construct (Call.gtk_application_window_new app) w
  let window := r1.1
  let w2 := call (Call.gtk_window_set_title window "Loki Terminal") r1.2
  let w3 := call (Call.gtk_window_set_default_size window 800 600) w2
  let r4 := construct (Call.gtk_box_new GTK_ORIENTATION_VERTICAL 0) w3
  let main_box := r4.1
  let w5 := call (Call.gtk_window_set_child window main_box) r4.2
  let r6 := construct Call.gtk_scrolled_window_new w5
  let scrolled := r6.1
  let w7 := call (Call.gtk_widget_set_vexpand scrolled true) r6.2
  let w8 := call (Call.gtk_box_append main_box scrolled) w7
  let r9 := construct Call.vte_terminal_new w8
  let terminal := r9.1
  let w10 := call (Call.gtk_scrolled_window_set_child scrolled terminal) r9.2
  let r11 := construct (Call.pango_font_description_from_string "Monospace 12") w10
  let font := r11.1
  let w12 := call (Call.vte_terminal_set_font terminal font) r11.2
  let w13 := call (Call.pango_font_description_free font) w12
  let w14 := call (Call.vte_terminal_set_scrollback_lines terminal 10000) w13
  let w15 := call (Call.vte_terminal_set_mouse_autohide terminal true) w14
  let w16 := setup_terminal_colors parse terminal w15
  let w17 := call
    (Call.g_signal_connect terminal "child-exited" Callback.on_child_exited window) w16
  let r18 := construct (Call.g_simple_action_new "copy" none) w17
  let copy_action := r18.1
  let w19 := call (Call.g_signal_connect copy_action "activate" Callback.copy_text terminal) r18.2
  let w20 := call (Call.g_action_map_add_action window copy_action) w19
  let r21 := construct (Call.g_simple_action_new "paste" none) w20
  let paste_action := r21.1
  let w22 := call (Call.g_signal_connect paste_action "activate" Callback.paste_text terminal) r21.2
  let w23 := call (Call.g_action_map_add_action window paste_action) w22
  let copy_accels := ["<Control><Shift>c"]
  let w24 := call (Call.gtk_application_set_accels_for_action app "win.copy" copy_accels) w23
  let paste_accels := ["<Control><Shift>v"]
  let w25 := call (Call.gtk_application_set_accels_for_action app "win.paste" paste_accels) w24
  let w26 := call (Call.gtk_window_present window) w25
  spawn_shell terminal window w26

/-- The handlers connected to a signal of an object, in connection order,
each with its user data. -/
def connections (calls : List Call) (object : Nat) (signal : String) :
    List (Callback × Nat) :=
  calls.filterMap fun c =>
    match c with
    | Call.g_signal_connect i s cb d => if i = object ∧ s = signal then some (cb, d) else none
    | _ => none

/-- What a signal emission or a completion passes to a handler before the
user data. -/
inductive Emission
  /-- `GApplication::activate (application)` -/
  | activate (application : Nat)
  /-- `VteTerminal::child-exited (terminal, status)` -/
  | child_exited (terminal : Nat) (status : Int)
  /-- `GSimpleAction::activate (action, parameter)` -/
  | action_activate (action parameter : Nat)
  /-- the completion of `vte_terminal_spawn_async (terminal, pid, error)` -/
  | spawn_done (terminal : Nat) (pid : Int) (error : Nat)
  deriving DecidableEq, Repr

/-- Calling a function of the program through its address, with the
arguments of an emission followed by the user data; a handler that does not
have the signature of the emission is a fault. -/
def invoke (parse : String → Option GdkRGBA) :
    Callback → Emission → Nat → World → Option World
  | Callback.activate, Emission.activate app, d, w => activate parse app d w
  | Callback.on_child_exited, Emission.child_exited t st, d, w =>
    some (on_child_exited t st d w)
  | Callback.copy_text, Emission.action_activate a p, d, w => some (copy_text a p d w)
  | Callback.paste_text, Emission.action_activate a p, d, w => some (paste_text a p d w)
  | Callback.spawn_callback, Emission.spawn_done t pid e, d, w => spawn_callback t pid e d w
  | _, _, _, _ => none

/-- Toolkit side of a signal emission: the connected handlers are invoked in
connection order. -/
def emitTo (parse : String → Option GdkRGBA) (args : Emission) :
    List (Callback × Nat) → World → Option World
  | [], w => some w
  | (cb, d) :: hs, w => (invoke parse cb args d w).bind (emitTo parse args hs)

/-- `g_application_run`, up to the first activation: the call is recorded
and the application's `activate` signal is emitted once.  What the event
loop delivers afterwards (spawn completion, child exit, actions) is not part
of this function. -/
def g_application_run (parse : String → Option GdkRGBA) (app : Nat) (argc : Int)
    (argv : List String) (w : World) : Option World :=
  let w1 := call (Call.g_application_run app argc argv) w
  emitTo parse (Emission.activate app) (connections w1.calls app "activate") w1

/-- Model of `main` (lines 153-164), up to the first activation and without
the return value, which is the event loop's. -/
def main (parse : String → Option GdkRGBA) (argc : Int) (argv : List String)
    (w : World) : Option World :=
  let w1 := g_setenv "GDK_RENDERING" "cairo" true w
  let r2 := construct (Call.gtk_application_new "com.example.loki-terminal"
    G_APPLICATION_DEFAULT_FLAGS) w1
  let app := r2.1
  let w3 := call (Call.g_signal_connect app "activate" Callback.activate 0) r2.2
  (g_application_run parse app argc argv w3).bind fun w4 =>
  some (call (Call.g_object_unref app) w4)

/-! ## Observations on a world -/

/-- The strings a pointer array holds up to its `NULL` terminator, as a
reader of the vector sees them; a dangling cell or a missing terminator is a
fault. -/
def readEach : List Nat → World → Option (List String)
  | [], _ => none
  | p :: ps, w =>
    if p = 0 then some []
    else
      match load p w with
      | some (Obj.cstr s) => (readEach ps w).map (fun r => s :: r)
      | _ => none

/-- The `NULL`-terminated string vector at address `p`. -/
def readStrv (p : Nat) (w : World) : Option (List String) :=
  match load p w with
  | some (Obj.ptrArray cells) => readEach cells w
  | _ => none

/-- The calls a step added: those of `after` beyond the ones of `before`. -/
def newCalls (before after : World) : List Call :=
  after.calls.drop before.calls.length

/-- Whether a call is a spawn request. -/
def isSpawn : Call → Bool
  | Call.vte_terminal_spawn_async _ _ _ _ _ _ _ _ _ _ _ _ _ => true
  | _ => false

/-- The blocks of the strings `ss` when copied one after the other starting
above address `n`, most recent first. -/
def strBlocks : List String → Nat → List (Nat × Obj)
  | [], _ => []
  | s :: ss, n => strBlocks ss (n + 1) ++ [(n + 1, Obj.cstr s)]

/-- The blocks of one spawn context allocated above address `n`: the
environment vector and its strings, the copy of the shell path, the argument
vector and the record. -/
def ctxBlocks (n window : Nat) (shell : String) (es : List String) : List (Nat × Obj) :=
  (n + 4 + es.length, Obj.ptrArray (List.range' (n + 4) es.length ++ [0])) ::
    (strBlocks es (n + 3) ++
      [(n + 3, Obj.cstr shell), (n + 2, Obj.ptrArray [n + 3, 0]),
       (n + 1, Obj.spawnData window (n + 2) (n + 4 + es.length))])

/-- The shell path `spawn_shell` settles on (lines 68-71). -/
def shellPath (w : World) : String :=
  match g_getenv "SHELL" w with
  | some s => s
  | none => "/bin/bash"

/-- Toolkit side of a spawn completion: on failure VTE allocates the
`GError` it hands to the callback, and keeps its ownership; on success the
error argument is `NULL`. -/
def completion_error (failure : Option String) (w : World) : Nat × World :=
  match failure with
  | none => (0, w)
  | some message => alloc (Obj.gerror message) w

/-- The world at process start: nothing allocated, no toolkit call issued,
nothing printed. -/
def World.start (environ : List (String × String)) (home : String) : World :=
  { environ := environ, home := home, last := 0, heap := [], calls := [], stderr := "",
    freed := [] }

/-- The arguments of a spawn request. -/
structure SpawnRequest where
  terminal : Nat
  pty_flags : Nat
  working_directory : String
  argv : Nat
  envv : Nat
  spawn_flags : Nat
  child_setup : Option Callback
  child_setup_data : Nat
  child_setup_data_destroy : Option Callback
  timeout : Int
  cancellable : Nat
  callback : Option Callback
  user_data : Nat
  deriving DecidableEq, Repr

/-- The spawn requests among some calls, in order. -/
def spawnRequests (calls : List Call) : List SpawnRequest :=
  calls.filterMap fun c =>
    match c with
    | Call.vte_terminal_spawn_async t pf wd argv envv sf cs csd csdd tmo cn cb ud =>
      some ⟨t, pf, wd, argv, envv, sf, cs, csd, csdd, tmo, cn, cb, ud⟩
    | _ => none

/-- The only spawn request issued between two worlds. -/
def theRequest (before after : World) : Option SpawnRequest :=
  match spawnRequests (newCalls before after) with
  | [r] => some r
  | _ => none

/-- The argument vector of the only spawn request issued between two
worlds, as the strings it holds. -/
def requestArgv (before after : World) : Option (List String) :=
  (theRequest before after).bind fun r => readStrv r.argv after

/-- The cells of the argument vector of the only spawn request issued
between two worlds, terminator included. -/
def requestArgvCells (before after : World) : Option (List Nat) :=
  (theRequest before after).bind fun r =>
    match load r.argv after with
    | some (Obj.ptrArray cells) => some cells
    | _ => none

/-- The environment vector of the only spawn request issued between two
worlds, as the strings it holds. -/
def requestEnvp (before after : World) : Option (List String) :=
  (theRequest before after).bind fun r => readStrv r.envv after

/-- The windows some calls created. -/
def createdWindows (calls : List Call) : List Nat :=
  calls.filterMap fun c =>
    match c with
    | Call.gtk_application_window_new _ ret => some ret
    | _ => none

/-- The terminal widgets some calls created. -/
def createdTerminals (calls : List Call) : List Nat :=
  calls.filterMap fun c =>
    match c with
    | Call.vte_terminal_new ret => some ret
    | _ => none

/-- The scrolled regions some calls created. -/
def createdScrolledWindows (calls : List Call) : List Nat :=
  calls.filterMap fun c =>
    match c with
    | Call.gtk_scrolled_window_new ret => some ret
    | _ => none

/-- The font descriptions some calls created, each with the string it was
made from. -/
def createdFontDescriptions (calls : List Call) : List (String × Nat) :=
  calls.filterMap fun c =>
    match c with
    | Call.pango_font_description_from_string str ret => some (str, ret)
    | _ => none

/-- The actions some calls added to the action map of a window, in order. -/
def actionMap (calls : List Call) (window : Nat) : List Nat :=
  calls.filterMap fun c =>
    match c with
    | Call.g_action_map_add_action m a => if m = window then some a else none
    | _ => none

/-- The name and parameter type an action was created with. -/
def actionInfo (calls : List Call) (action : Nat) : Option (String × Option String) :=
  calls.findSome? fun c =>
    match c with
    | Call.g_simple_action_new name ty ret => if ret = action then some (name, ty) else none
    | _ => none

/-- The accelerators of a detailed action name: those of the most recent
`gtk_application_set_accels_for_action` for it, none when there is no such
call. -/
def accelsFor (calls : List Call) (app : Nat) (name : String) : List String :=
  calls.foldl
    (fun acc c =>
      match c with
      | Call.gtk_application_set_accels_for_action a n accels =>
        if a = app ∧ n = name then accels else acc
      | _ => acc)
    []

/-- The set-colors calls on a terminal among some calls. -/
def setColorsCalls (calls : List Call) (terminal : Nat) : List Call :=
  calls.filter fun c =>
    match c with
    | Call.vte_terminal_set_colors t _ _ _ _ => decide (t = terminal)
    | _ => false

/-- A hexadecimal digit. -/
def isHexDigit (c : Char) : Bool :=
  c.isDigit || ('a' ≤ c && c ≤ 'f') || ('A' ≤ c && c ≤ 'F')

/-- A well-formed `#rrggbb` colour: `#` and six hexadecimal digits. -/
def isHexColor (s : String) : Bool :=
  match s.data with
  | ['#', a, b, c, d, e, f] =>
    isHexDigit a && isHexDigit b && isHexDigit c && isHexDigit d && isHexDigit e &&
      isHexDigit f
  | _ => false

/-- The value of a hexadecimal digit. -/
def hexValue (c : Char) : Nat :=
  if c.isDigit then c.toNat - 48
  else if 'a' ≤ c && c ≤ 'f' then c.toNat - 87
  else c.toNat - 55

/-- A reference parser for the `#rrggbb` notation of `gdk_rgba_parse`: two
hexadecimal digits per channel.  The other notations GDK accepts (names,
`rgb()`, other digit counts) are outside it and give `none`. -/
def parseHexColor (s : String) : Option GdkRGBA :=
  if isHexColor s then
    match s.data with
    | [_, a, b, c, d, e, f] =>
      some ⟨16 * hexValue a + hexValue b, 16 * hexValue c + hexValue d,
        16 * hexValue e + hexValue f⟩
    | _ => none
  else none

/-- The state `spawn_shell` leaves, as a function of the state it starts in. -/
def afterSpawn (terminal window : Nat) (w : World) : World :=
  { w with
    last := w.last + 4 + w.environ.length
    heap := ctxBlocks w.last window (shellPath w) (w.environ.map envEntry) ++ w.heap
    calls := w.calls ++ [Call.vte_terminal_spawn_async terminal VTE_PTY_DEFAULT w.home
      (w.last + 2) (w.last + 4 + w.environ.length) G_SPAWN_SEARCH_PATH none 0 none (-1) 0
      (some Callback.spawn_callback) (w.last + 1)] }

/-- The calls of one activation that precede `spawn_shell`, for an
activation that starts with `n` as the highest address in use. -/
def frontCalls (parse : String → Option GdkRGBA) (app n : Nat) : List Call :=
  [Call.gtk_application_window_new app (n + 1),
   Call.gtk_window_set_title (n + 1) "Loki Terminal",
   Call.gtk_window_set_default_size (n + 1) 800 600,
   Call.gtk_box_new GTK_ORIENTATION_VERTICAL 0 (n + 2),
   Call.gtk_window_set_child (n + 1) (n + 2),
   Call.gtk_scrolled_window_new (n + 3),
   Call.gtk_widget_set_vexpand (n + 3) true,
   Call.gtk_box_append (n + 2) (n + 3),
   Call.vte_terminal_new (n + 4),
   Call.gtk_scrolled_window_set_child (n + 3) (n + 4),
   Call.pango_font_description_from_string "Monospace 12" (n + 5),
   Call.vte_terminal_set_font (n + 4) (n + 5),
   Call.pango_font_description_free (n + 5),
   Call.vte_terminal_set_scrollback_lines (n + 4) 10000,
   Call.vte_terminal_set_mouse_autohide (n + 4) true,
   Call.vte_terminal_set_colors (n + 4) (parse "#839496") (parse "#002b36")
     (["#073642", "#dc322f", "#859900", "#b58900", "#268bd2", "#d33682", "#2aa198", "#eee8d5",
       "#002b36", "#cb4b16", "#586e75", "#657b83", "#839496", "#6c71c4", "#93a1a1",
       "#fdf6e3"].map parse) 16,
   Call.g_signal_connect (n + 4) "child-exited" Callback.on_child_exited (n + 1),
   Call.g_simple_action_new "copy" none (n + 6),
   Call.g_signal_connect (n + 6) "activate" Callback.copy_text (n + 4),
   Call.g_action_map_add_action (n + 1) (n + 6),
   Call.g_simple_action_new "paste" none (n + 7),
   Call.g_signal_connect (n + 7) "activate" Callback.paste_text (n + 4),
   Call.g_action_map_add_action (n + 1) (n + 7),
   Call.gtk_application_set_accels_for_action app "win.copy" ["<Control><Shift>c"],
   Call.gtk_application_set_accels_for_action app "win.paste" ["<Control><Shift>v"],
   Call.gtk_window_present (n + 1)]

/-- The state of an activation when it reaches `spawn_shell`. -/
def beforeSpawn (parse : String → Option GdkRGBA) (app : Nat) (w : World) : World :=
  { w with last := w.last + 7, calls := w.calls ++ frontCalls parse app w.last }

/-- The state `main` leaves when it starts from `w` with no earlier toolkit
call: the state after the one activation, with the final unref. -/
def afterMain (parse : String → Option GdkRGBA) (argc : Int) (argv : List String)
    (environ : List (String × String)) (home : String) : World :=
  call (Call.g_object_unref 1)
    (afterSpawn 5 2 (beforeSpawn parse 1
      { environ := setenvList environ "GDK_RENDERING" "cairo" true, home := home, last := 1,
        heap := [],
        calls := [Call.gtk_application_new "com.example.loki-terminal"
            G_APPLICATION_DEFAULT_FLAGS 1,
          Call.g_signal_connect 1 "activate" Callback.activate 0,
          Call.g_application_run 1 argc argv],
        stderr := "", freed := [] }))

/-! ## Heap lemmas -/

theorem heapLoad_append (front h : List (Nat × Obj)) (p : Nat)
    (hf : ∀ e ∈ front, e.1 ≠ p) : heapLoad (front ++ h) p = heapLoad h p := by
  induction front with
  | nil => rfl
  | cons e front ih =>
    obtain ⟨q, x⟩ := e
    have hq : q ≠ p := hf (q, x) (by simp)
    have ih2 := ih (fun e he => hf e (by simp [he]))
    simp [heapLoad, hq, ih2]

theorem heapStore_append (front h : List (Nat × Obj)) (p : Nat) (o : Obj)
    (hf : ∀ e ∈ front, e.1 ≠ p) :
    heapStore (front ++ h) p o = (heapStore h p o).map (fun r => front ++ r) := by
  induction front with
  | nil => simp
  | cons e front ih =>
    obtain ⟨q, x⟩ := e
    have hq : q ≠ p := hf (q, x) (by simp)
    have ih2 := ih (fun e he => hf e (by simp [he]))
    simp [heapStore, hq, ih2, Option.map_map, Function.comp_def]

theorem heapFree_append (front h : List (Nat × Obj)) (p : Nat)
    (hf : ∀ e ∈ front, e.1 ≠ p) :
    heapFree (front ++ h) p = (heapFree h p).map (fun r => front ++ r) := by
  induction front with
  | nil => simp
  | cons e front ih =>
    obtain ⟨q, x⟩ := e
    have hq : q ≠ p := hf (q, x) (by simp)
    have ih2 := ih (fun e he => hf e (by simp [he]))
    simp [heapFree, hq, ih2, Option.map_map, Function.comp_def]

theorem strBlocks_key (ss : List String) :
    ∀ (n : Nat) (e : Nat × Obj), e ∈ strBlocks ss n → n < e.1 ∧ e.1 ≤ n + ss.length := by
  induction ss with
  | nil => intro n e he; simp [strBlocks] at he
  | cons s ss ih =>
    intro n e he
    simp only [strBlocks, List.mem_append, List.mem_singleton] at he
    rcases he with he | he
    · have := ih (n + 1) e he
      simp only [List.length_cons]
      omega
    · subst he
      simp only [List.length_cons]
      omega

theorem dupEach_eq (ss : List String) :
    ∀ w : World, dupEach ss w =
      (List.range' (w.last + 1) ss.length,
        { w with last := w.last + ss.length, heap := strBlocks ss w.last ++ w.heap }) := by
  induction ss with
  | nil => intro w; simp [dupEach, strBlocks]
  | cons s ss ih =>
    intro w
    simp only [dupEach, g_strdup, alloc, ih, strBlocks, List.length_cons, List.range'_succ,
      List.append_assoc, List.singleton_append]
    simp only [Nat.add_assoc, Nat.add_comm 1]

theorem heapLoad_cons_eq (p : Nat) (x : Obj) (h : List (Nat × Obj)) :
    heapLoad ((p, x) :: h) p = some x := by simp [heapLoad]

theorem heapLoad_cons_ne (p q : Nat) (x : Obj) (h : List (Nat × Obj)) (hq : q ≠ p) :
    heapLoad ((q, x) :: h) p = heapLoad h p := by simp [heapLoad, hq]

theorem heapStore_cons_eq (p : Nat) (x o : Obj) (h : List (Nat × Obj)) :
    heapStore ((p, x) :: h) p o = some ((p, o) :: h) := by simp [heapStore]

theorem heapStore_cons_ne (p q : Nat) (x o : Obj) (h : List (Nat × Obj)) (hq : q ≠ p) :
    heapStore ((q, x) :: h) p o = (heapStore h p o).map (fun r => (q, x) :: r) := by
  simp [heapStore, hq]

theorem heapFree_cons_eq (p : Nat) (x : Obj) (h : List (Nat × Obj)) :
    heapFree ((p, x) :: h) p = some h := by simp [heapFree]

theorem heapFree_cons_ne (p q : Nat) (x : Obj) (h : List (Nat × Obj)) (hq : q ≠ p) :
    heapFree ((q, x) :: h) p = (heapFree h p).map (fun r => (q, x) :: r) := by
  simp [heapFree, hq]

theorem heapLoad_strBlocks (es : List String) (n p : Nat) (h : List (Nat × Obj)) (hp : p ≤ n) :
    heapLoad (strBlocks es n ++ h) p = heapLoad h p :=
  heapLoad_append _ _ _ (fun e he => by have := strBlocks_key es n e he; omega)

theorem heapStore_strBlocks (es : List String) (n p : Nat) (o : Obj) (h : List (Nat × Obj))
    (hp : p ≤ n) :
    heapStore (strBlocks es n ++ h) p o = (heapStore h p o).map (fun r => strBlocks es n ++ r) :=
  heapStore_append _ _ _ _ (fun e he => by have := strBlocks_key es n e he; omega)

theorem spawn_shell_eq (terminal window : Nat) (w : World) :
    spawn_shell terminal window w = some
      { w with
        last := w.last + 4 + w.environ.length
        heap := ctxBlocks w.last window (shellPath w) (w.environ.map envEntry) ++ w.heap
        calls := w.calls ++ [Call.vte_terminal_spawn_async terminal VTE_PTY_DEFAULT w.home
          (w.last + 2) (w.last + 4 + w.environ.length) G_SPAWN_SEARCH_PATH none 0 none (-1) 0
          (some Callback.spawn_callback) (w.last + 1)] } := by
  obtain ⟨environ, home, last, heap, calls, stderr, freed⟩ := w
  simp only [spawn_shell, alloc, g_strdup, g_get_environ, dupEach_eq, g_get_home_dir, call]
  simp (disch := omega) only [set_SpawnData_window, load, store, heapLoad_cons_eq,
    heapStore_cons_eq, Option.map_some', Option.some_bind]
  simp (disch := omega) only [set_SpawnData_argv, load, store, heapLoad_cons_eq,
    heapStore_cons_eq, heapLoad_cons_ne, heapStore_cons_ne, Option.map_some', Option.some_bind]
  simp (disch := omega) only [SpawnData_argv, load, heapLoad_cons_eq, heapLoad_cons_ne,
    Option.some_bind]
  simp (disch := omega) only [set_cell, load, store, heapLoad_cons_eq, heapStore_cons_eq,
    heapLoad_cons_ne, heapStore_cons_ne, Option.map_some', Option.some_bind,
    List.replicate_succ, List.replicate_zero, List.length_cons, List.length_nil,
    List.set_cons_zero, List.set_cons_succ, Nat.zero_lt_succ, if_true]
  simp (disch := omega) only [show (1 < 0 + 1 + 1) from by decide, if_true, Option.some_bind]
  simp (disch := omega) only [set_SpawnData_envp, load, store, heapLoad_cons_eq,
    heapStore_cons_eq, heapLoad_cons_ne, heapStore_cons_ne, heapLoad_strBlocks,
    heapStore_strBlocks, Option.map_some', Option.some_bind, List.length_map]
  simp (disch := omega) only [SpawnData_envp, load, heapLoad_cons_eq, heapLoad_cons_ne,
    heapLoad_strBlocks, Option.some_bind]
  have e2 : last + 1 + 1 = last + 2 := rfl
  have e3 : last + 2 + 1 = last + 3 := rfl
  have e4 : last + 3 + 1 = last + 4 := rfl
  have e5 : last + 3 + environ.length + 1 = last + 4 + environ.length := by omega
  simp only [e2, e3, e4, e5, ctxBlocks, shellPath, List.length_map, List.cons_append,
    List.append_assoc, List.nil_append]

theorem freeEach_strBlocks (es : List String) :
    ∀ (n : Nat) (front h : List (Nat × Obj)) (w : World),
      (∀ e ∈ front, e.1 ≤ n ∨ n + es.length < e.1) →
      w.heap = front ++ (strBlocks es n ++ h) →
      freeEach (List.range' (n + 1) es.length ++ [0]) w =
        some { w with heap := front ++ h, freed := w.freed ++ List.range' (n + 1) es.length } := by
  induction es with
  | nil =>
    intro n front h w _ hw
    obtain ⟨environ, home, last, heap, calls, stderr, freed⟩ := w
    simp only [strBlocks, List.nil_append] at hw
    subst hw
    simp [freeEach]
  | cons s es ih =>
    intro n front h w hfront hw
    obtain ⟨environ, home, last, heap, calls, stderr, freed⟩ := w
    simp only [strBlocks, List.append_assoc, List.singleton_append] at hw
    subst hw
    have hkey : ∀ e ∈ front ++ strBlocks es (n + 1), e.1 ≠ n + 1 := by
      intro e he
      rcases List.mem_append.1 he with he | he
      · have := hfront e he
        simp only [List.length_cons] at this
        omega
      · have := strBlocks_key es (n + 1) e he
        omega
    have hfree : heapFree (front ++ (strBlocks es (n + 1) ++ (n + 1, Obj.cstr s) :: h)) (n + 1)
        = some (front ++ (strBlocks es (n + 1) ++ h)) := by
      rw [← List.append_assoc, heapFree_append _ _ _ hkey, heapFree_cons_eq]
      simp
    have hstep := ih (n + 1) front h
      { environ := environ, home := home, last := last,
        heap := front ++ (strBlocks es (n + 1) ++ h), calls := calls, stderr := stderr,
        freed := freed ++ [n + 1] }
      (fun e he => by
        have := hfront e he
        simp only [List.length_cons] at this
        omega) rfl
    simp only [List.length_cons, List.range'_succ, List.cons_append, freeEach, g_free,
      Nat.add_one_ne_zero, if_false, hfree, Option.map_some', Option.some_bind]
    simpa using hstep

theorem release_eq (n window : Nat) (shell : String) (es : List String)
    (front h : List (Nat × Obj)) (w : World)
    (hfront : ∀ e ∈ front, n + 4 + es.length < e.1)
    (hw : w.heap = front ++ (ctxBlocks n window shell es ++ h)) :
    ((SpawnData_argv (n + 1) w).bind fun argv =>
      (g_strfreev argv w).bind fun w3 =>
      (SpawnData_envp (n + 1) w3).bind fun envp =>
      (g_strfreev envp w3).bind fun w4 =>
      g_free (n + 1) w4) =
      some { w with
        heap := front ++ h
        freed := w.freed ++
          ([n + 3, n + 2] ++ List.range' (n + 4) es.length ++ [n + 4 + es.length, n + 1]) } := by
  obtain ⟨environ, home, last, heap, calls, stderr, freed⟩ := w
  simp only [ctxBlocks, List.cons_append, List.append_assoc, List.nil_append] at hw
  subst hw
  have hL : ∀ (p : Nat) (rest : List (Nat × Obj)), p ≤ n + 4 + es.length →
      heapLoad (front ++ rest) p = heapLoad rest p := fun p rest hp =>
    heapLoad_append _ _ _ (fun e he => by have := hfront e he; omega)
  have hF : ∀ (p : Nat) (rest : List (Nat × Obj)), p ≤ n + 4 + es.length →
      heapFree (front ++ rest) p = (heapFree rest p).map (fun r => front ++ r) := fun p rest hp =>
    heapFree_append _ _ _ (fun e he => by have := hfront e he; omega)
  have hS : ∀ (p : Nat) (rest : List (Nat × Obj)), p ≤ n + 3 →
      heapFree (strBlocks es (n + 3) ++ rest) p
        = (heapFree rest p).map (fun r => strBlocks es (n + 3) ++ r) := fun p rest hp =>
    heapFree_append _ _ _ (fun e he => by have := strBlocks_key es (n + 3) e he; omega)
  simp (disch := omega) only [SpawnData_argv, load, hL, heapLoad_cons_eq, heapLoad_cons_ne,
    heapLoad_strBlocks, Option.some_bind]
  simp (disch := omega) only [g_strfreev, load, hL, heapLoad_cons_eq, heapLoad_cons_ne,
    heapLoad_strBlocks, Option.some_bind, if_false, Nat.add_one_ne_zero, freeEach, g_free,
    hF, hS, heapFree_cons_eq, heapFree_cons_ne, Option.map_some', if_true]
  simp (disch := omega) only [SpawnData_envp, load, hL, heapLoad_cons_eq, heapLoad_cons_ne,
    heapLoad_strBlocks, Option.some_bind, if_neg]
  have hfe : freeEach (List.range' (n + 4) es.length ++ [0])
      { environ := environ, home := home, last := last,
        heap := front ++ (n + 4 + es.length,
            Obj.ptrArray (List.range' (n + 4) es.length ++ [0])) ::
          (strBlocks es (n + 3) ++ (n + 1, Obj.spawnData window (n + 2) (n + 4 + es.length)) :: h),
        calls := calls, stderr := stderr, freed := freed ++ [n + 3, n + 2] }
      = some (World.mk environ home last
          (front ++ (n + 4 + es.length, Obj.ptrArray (List.range' (n + 4) es.length ++ [0])) ::
            (n + 1, Obj.spawnData window (n + 2) (n + 4 + es.length)) :: h)
          calls stderr (freed ++ [n + 3, n + 2] ++ List.range' (n + 4) es.length)) := by
    have := freeEach_strBlocks es (n + 3)
      (front ++ [(n + 4 + es.length, Obj.ptrArray (List.range' (n + 4) es.length ++ [0]))])
      ((n + 1, Obj.spawnData window (n + 2) (n + 4 + es.length)) :: h)
      { environ := environ, home := home, last := last,
        heap := front ++ (n + 4 + es.length,
            Obj.ptrArray (List.range' (n + 4) es.length ++ [0])) ::
          (strBlocks es (n + 3) ++ (n + 1, Obj.spawnData window (n + 2) (n + 4 + es.length)) :: h),
        calls := calls, stderr := stderr, freed := freed ++ [n + 3, n + 2] }
      (fun e he => by
        rcases List.mem_append.1 he with he | he
        · have := hfront e he
          omega
        · simp only [List.mem_singleton] at he
          subst he
          simp only
          omega)
      (by simp)
    simpa using this
  simp (disch := omega) only [hfe, Option.some_bind, hF, heapFree_cons_eq, heapFree_cons_ne,
    Option.map_some', List.append_assoc, List.cons_append, List.nil_append]

theorem readEach_strBlocks (es : List String) :
    ∀ (n : Nat) (front rest : List (Nat × Obj)) (w : World),
      (∀ e ∈ front, e.1 ≤ n ∨ n + es.length < e.1) →
      w.heap = front ++ (strBlocks es n ++ rest) →
      readEach (List.range' (n + 1) es.length ++ [0]) w = some es := by
  induction es with
  | nil =>
    intro n front rest w _ _
    simp [readEach]
  | cons s es ih =>
    intro n front rest w hfront hw
    simp only [strBlocks, List.append_assoc, List.singleton_append] at hw
    have hkey : ∀ e ∈ front ++ strBlocks es (n + 1), e.1 ≠ n + 1 := by
      intro e he
      rcases List.mem_append.1 he with he | he
      · have := hfront e he
        simp only [List.length_cons] at this
        omega
      · have := strBlocks_key es (n + 1) e he
        omega
    have hload : load (n + 1) w = some (Obj.cstr s) := by
      rw [load, hw, ← List.append_assoc, heapLoad_append _ _ _ hkey, heapLoad_cons_eq]
    have hstep := ih (n + 1) front ((n + 1, Obj.cstr s) :: rest) w
      (fun e he => by
        have := hfront e he
        simp only [List.length_cons] at this
        omega) hw
    simp only [List.length_cons, List.range'_succ, List.cons_append, readEach,
      Nat.add_one_ne_zero, if_false, hload, Option.map_some']
    have hstep2 : readEach ((List.range' (n + 1 + 1) es.length).append [0]) w = some es := hstep
    rw [hstep2]
    rfl

theorem newCalls_append (w w' : World) (cs : List Call) (h : w'.calls = w.calls ++ cs) :
    newCalls w w' = cs := by
  simp [newCalls, h]

theorem theRequest_afterSpawn (terminal window : Nat) (w : World) :
    theRequest w (afterSpawn terminal window w) = some
      ⟨terminal, VTE_PTY_DEFAULT, w.home, w.last + 2, w.last + 4 + w.environ.length,
        G_SPAWN_SEARCH_PATH, none, 0, none, -1, 0, some Callback.spawn_callback, w.last + 1⟩ := by
  have h := newCalls_append w (afterSpawn terminal window w) _ rfl
  simp [theRequest, h, spawnRequests]

theorem requestArgvCells_afterSpawn (terminal window : Nat) (w : World) :
    requestArgvCells w (afterSpawn terminal window w) = some [w.last + 3, 0] := by
  rw [requestArgvCells, theRequest_afterSpawn]
  simp (disch := omega) only [Option.some_bind, load,
    afterSpawn, ctxBlocks, List.cons_append, heapLoad_cons_ne, heapLoad_strBlocks,
    heapLoad_cons_eq, List.append_assoc, List.length_map]

theorem requestArgv_afterSpawn (terminal window : Nat) (w : World) :
    requestArgv w (afterSpawn terminal window w) = some [shellPath w] := by
  rw [requestArgv, theRequest_afterSpawn]
  simp (disch := omega) only [Option.some_bind, load,
    afterSpawn, ctxBlocks, List.cons_append, heapLoad_cons_ne, heapLoad_strBlocks,
    heapLoad_cons_eq, List.append_assoc, readStrv, readEach, if_neg, if_true, Option.map_some',
    List.length_map]

theorem requestEnvp_afterSpawn (terminal window : Nat) (w : World) :
    requestEnvp w (afterSpawn terminal window w) = some (w.environ.map envEntry) := by
  have h := readEach_strBlocks (w.environ.map envEntry) (w.last + 3)
    [(w.last + 4 + w.environ.length,
      Obj.ptrArray (List.range' (w.last + 4) w.environ.length ++ [0]))]
    ([(w.last + 3, Obj.cstr (shellPath w)), (w.last + 2, Obj.ptrArray [w.last + 3, 0]),
       (w.last + 1, Obj.spawnData window (w.last + 2) (w.last + 4 + w.environ.length))] ++ w.heap)
    (afterSpawn terminal window w)
    (fun e he => by
      simp only [List.mem_singleton] at he
      subst he
      simp only [List.length_map]
      omega)
    (by simp [afterSpawn, ctxBlocks])
  simp only [List.length_map] at h
  rw [requestEnvp, theRequest_afterSpawn]
  have hl : load (w.last + 4 + w.environ.length) (afterSpawn terminal window w)
      = some (Obj.ptrArray (List.range' (w.last + 4) w.environ.length ++ [0])) := by
    simp (disch := omega) only [load, afterSpawn, ctxBlocks, List.cons_append, heapLoad_cons_eq,
      List.length_map]
  simp only [Option.some_bind, readStrv, hl]
  exact h

theorem spawn_shell_afterSpawn (terminal window : Nat) (w : World) :
    spawn_shell terminal window w = some (afterSpawn terminal window w) :=
  spawn_shell_eq terminal window w

/-- C1. Shell selection in `spawn_shell`: when `SHELL` is set to a non-empty
string `v`, the spawn request is issued and its argument vector is exactly
`[v]` followed by the `NULL` terminator (two cells, the first pointing to a
copy of `v`, the second `NULL`); when `SHELL` is unset, it is exactly
`["/bin/bash"]` followed by the terminator. -/
theorem spawn_shell_argv (terminal window : Nat) (w : World) :
    (∀ v : String, g_getenv "SHELL" w = some v → v ≠ "" →
      (spawn_shell terminal window w).bind (requestArgv w) = some [v] ∧
      (spawn_shell terminal window w).bind (requestArgvCells w) = some [w.last + 3, 0] ∧
      (spawn_shell terminal window w).bind (load (w.last + 3)) = some (Obj.cstr v)) ∧
    (g_getenv "SHELL" w = none →
      (spawn_shell terminal window w).bind (requestArgv w) = some ["/bin/bash"] ∧
      (spawn_shell terminal window w).bind (requestArgvCells w) = some [w.last + 3, 0] ∧
      (spawn_shell terminal window w).bind (load (w.last + 3)) = some (Obj.cstr "/bin/bash")) := by
  have hl : load (w.last + 3) (afterSpawn terminal window w) = some (Obj.cstr (shellPath w)) := by
    simp (disch := omega) only [load, afterSpawn, ctxBlocks, List.cons_append, heapLoad_cons_ne,
      heapLoad_strBlocks, heapLoad_cons_eq, List.append_assoc, List.length_map]
  simp only [spawn_shell_afterSpawn, Option.some_bind, requestArgv_afterSpawn,
    requestArgvCells_afterSpawn, hl]
  constructor
  · intro v hv _
    simp [shellPath, hv]
  · intro hv
    simp [shellPath, hv]

/-- Witness of C1: an environment with `SHELL=/usr/bin/zsh` and one without
`SHELL`. -/
theorem spawn_shell_argv_witness :
    ((spawn_shell 5 2 (World.start [("HOME", "/root"), ("SHELL", "/usr/bin/zsh")] "/root")).bind
        (requestArgv (World.start [("HOME", "/root"), ("SHELL", "/usr/bin/zsh")] "/root"))
      = some ["/usr/bin/zsh"]) ∧
    ((spawn_shell 5 2 (World.start [("HOME", "/root")] "/root")).bind
        (requestArgv (World.start [("HOME", "/root")] "/root"))
      = some ["/bin/bash"]) :=
  ⟨((spawn_shell_argv 5 2 (World.start [("HOME", "/root"), ("SHELL", "/usr/bin/zsh")] "/root")).1
      "/usr/bin/zsh" (by decide) (by decide)).1,
   ((spawn_shell_argv 5 2 (World.start [("HOME", "/root")] "/root")).2 (by decide)).1⟩

/-- C2 (counterexample). With `SHELL` set to the empty string, the argument
vector of the spawn request is `[""]`: the shell path chosen is the empty
string, not `/bin/bash`. -/
theorem spawn_shell_empty_SHELL_counterexample :
    g_getenv "SHELL" (World.start [("SHELL", "")] "/root") = some "" ∧
    (spawn_shell 5 2 (World.start [("SHELL", "")] "/root")).bind
        (requestArgv (World.start [("SHELL", "")] "/root")) = some [""] ∧
    (spawn_shell 5 2 (World.start [("SHELL", "")] "/root")).bind
        (requestArgv (World.start [("SHELL", "")] "/root")) ≠ some ["/bin/bash"] := by
  decide

/-- C2 (amended). When `SHELL` is set to the empty string, the spawn request
is issued with the argument vector `[""]`: the shell path is the value of
`SHELL` as it is, and the `/bin/bash` fallback is taken only when `SHELL` is
unset. -/
theorem spawn_shell_empty_SHELL (terminal window : Nat) (w : World)
    (h : g_getenv "SHELL" w = some "") :
    (spawn_shell terminal window w).bind (requestArgv w) = some [""] := by
  simp [spawn_shell_afterSpawn, requestArgv_afterSpawn, shellPath, h]

/-- Witness of C2 (amended): an environment with `SHELL` set to the empty
string. -/
theorem spawn_shell_empty_SHELL_witness :
    g_getenv "SHELL" (World.start [("SHELL", ""), ("HOME", "/home/u")] "/home/u") = some "" ∧
    (spawn_shell 4 1 (World.start [("SHELL", ""), ("HOME", "/home/u")] "/home/u")).bind
        (requestArgv (World.start [("SHELL", ""), ("HOME", "/home/u")] "/home/u")) = some [""] :=
  ⟨by decide,
    spawn_shell_empty_SHELL 4 1 (World.start [("SHELL", ""), ("HOME", "/home/u")] "/home/u")
      (by decide)⟩

/-- C6. Spawn request parameters: `spawn_shell` issues exactly one spawn
request, on the terminal it was given, with the default PTY flags, the value
of `g_get_home_dir` as working directory, exactly the search-path spawn flag,
no child-setup hook, hook data or destroy notifier, timeout -1, no
cancellable, `spawn_callback` as completion callback, and as callback data a
record whose window field is the window passed in and whose `argv` and `envp`
fields are the vectors passed in the request. -/
theorem spawn_shell_request (terminal window : Nat) (w : World) :
    ∃ (w' : World) (r : SpawnRequest),
      spawn_shell terminal window w = some w' ∧
      spawnRequests (newCalls w w') = [r] ∧
      r.terminal = terminal ∧
      r.pty_flags = VTE_PTY_DEFAULT ∧
      r.working_directory = g_get_home_dir w ∧
      r.spawn_flags = G_SPAWN_SEARCH_PATH ∧
      r.child_setup = none ∧ r.child_setup_data = 0 ∧ r.child_setup_data_destroy = none ∧
      r.timeout = -1 ∧
      r.cancellable = 0 ∧
      r.callback = some Callback.spawn_callback ∧
      load r.user_data w' = some (Obj.spawnData window r.argv r.envv) := by
  refine ⟨afterSpawn terminal window w,
    ⟨terminal, VTE_PTY_DEFAULT, w.home, w.last + 2, w.last + 4 + w.environ.length,
      G_SPAWN_SEARCH_PATH, none, 0, none, -1, 0, some Callback.spawn_callback, w.last + 1⟩,
    spawn_shell_afterSpawn terminal window w, ?_, rfl, rfl, rfl, rfl, rfl, rfl, rfl, rfl, rfl,
    rfl, ?_⟩
  · rw [newCalls_append w (afterSpawn terminal window w) _ rfl]
    simp [spawnRequests]
  · simp (disch := omega) only [load, afterSpawn, ctxBlocks, List.cons_append, heapLoad_cons_ne,
      heapLoad_strBlocks, heapLoad_cons_eq, List.append_assoc, List.length_map]

theorem gdk_rgba_parse_none (parse : String → Option GdkRGBA) (spec : String) :
    gdk_rgba_parse parse none spec = parse spec := by
  unfold gdk_rgba_parse
  cases parse spec <;> rfl

theorem setup_terminal_colors_eq (parse : String → Option GdkRGBA) (terminal : Nat)
    (w : World) :
    setup_terminal_colors parse terminal w =
      call (Call.vte_terminal_set_colors terminal (parse "#839496") (parse "#002b36")
        (["#073642", "#dc322f", "#859900", "#b58900", "#268bd2", "#d33682", "#2aa198",
          "#eee8d5", "#002b36", "#cb4b16", "#586e75", "#657b83", "#839496", "#6c71c4",
          "#93a1a1", "#fdf6e3"].map parse) 16) w := by
  have hp : (List.range 16).foldl
      (fun pal i =>
        pal.set i (gdk_rgba_parse parse (pal.getD i none) (palette_colors.getD i "")))
      (List.replicate 16 none)
      = ["#073642", "#dc322f", "#859900", "#b58900", "#268bd2", "#d33682", "#2aa198",
          "#eee8d5", "#002b36", "#cb4b16", "#586e75", "#657b83", "#839496", "#6c71c4",
          "#93a1a1", "#fdf6e3"].map (gdk_rgba_parse parse none) := by
    have hr : List.range 16 = [0, 1, 2, 3, 4, 5, 6, 7, 8, 9, 10, 11, 12, 13, 14, 15] := by
      decide
    rw [hr]
    simp only [List.foldl, List.replicate, List.set, List.getD_cons_zero, List.getD_cons_succ,
      palette_colors, List.map]
  rw [setup_terminal_colors, hp]
  simp only [gdk_rgba_parse_none, List.map]

theorem activate_eq (parse : String → Option GdkRGBA) (app user_data : Nat) (w : World) :
    activate parse app user_data w =
      spawn_shell (w.last + 4) (w.last + 1) (beforeSpawn parse app w) := by
  simp only [activate, setup_terminal_colors_eq, construct, call, beforeSpawn, frontCalls,
    List.append_assoc, List.cons_append, List.nil_append, Nat.add_assoc]

theorem activate_afterSpawn (parse : String → Option GdkRGBA) (app user_data : Nat)
    (w : World) :
    activate parse app user_data w =
      some (afterSpawn (w.last + 4) (w.last + 1) (beforeSpawn parse app w)) := by
  rw [activate_eq, spawn_shell_afterSpawn]

theorem newCalls_activate (parse : String → Option GdkRGBA) (app : Nat) (w : World) :
    newCalls w (afterSpawn (w.last + 4) (w.last + 1) (beforeSpawn parse app w)) =
      frontCalls parse app w.last ++
        [Call.vte_terminal_spawn_async (w.last + 4) VTE_PTY_DEFAULT w.home (w.last + 7 + 2)
          (w.last + 7 + 4 + w.environ.length) G_SPAWN_SEARCH_PATH none 0 none (-1) 0
          (some Callback.spawn_callback) (w.last + 7 + 1)] :=
  newCalls_append w _ _ (by simp [afterSpawn, beforeSpawn])

/-- C5. Ordering in `activate`: the calls of one activation are a front part
followed by one spawn request, which is the last call and the only spawn
request, and is on the terminal the activation created.  The front part
creates exactly one window, one scrolled region, one terminal widget and one
font description (from "Monospace 12"), and holds, in this order: the
creation of the window, of the scrolled region and of the terminal, the
parenting of that terminal into that scrolled region, the creation of the
font description and its setting on the terminal, the scrollback and
autohide settings, the one set-colors call on the terminal, which carries
the parses of `#839496`, of `#002b36` and of the 16 palette strings, the
connection of child-exited with that window as data, and the presentation of
that window. -/
theorem activate_ordering (parse : String → Option GdkRGBA) (app user_data : Nat)
    (w : World) :
    ∃ (w' : World) (front : List Call) (request : Call) (window scrolled terminal font : Nat),
      activate parse app user_data w = some w' ∧
      newCalls w w' = front ++ [request] ∧
      isSpawn request = true ∧
      front.all (fun c => !isSpawn c) = true ∧
      (spawnRequests [request]).map SpawnRequest.terminal = [terminal] ∧
      createdWindows front = [window] ∧
      createdScrolledWindows front = [scrolled] ∧
      createdTerminals front = [terminal] ∧
      createdFontDescriptions front = [("Monospace 12", font)] ∧
      setColorsCalls front terminal =
        [Call.vte_terminal_set_colors terminal (parse "#839496") (parse "#002b36")
          (["#073642", "#dc322f", "#859900", "#b58900", "#268bd2", "#d33682", "#2aa198",
            "#eee8d5", "#002b36", "#cb4b16", "#586e75", "#657b83", "#839496", "#6c71c4",
            "#93a1a1", "#fdf6e3"].map parse) 16] ∧
      List.Sublist
        [Call.gtk_application_window_new app window,
         Call.gtk_scrolled_window_new scrolled,
         Call.vte_terminal_new terminal,
         Call.gtk_scrolled_window_set_child scrolled terminal,
         Call.pango_font_description_from_string "Monospace 12" font,
         Call.vte_terminal_set_font terminal font,
         Call.vte_terminal_set_scrollback_lines terminal 10000,
         Call.vte_terminal_set_mouse_autohide terminal true,
         Call.vte_terminal_set_colors terminal (parse "#839496") (parse "#002b36")
           (["#073642", "#dc322f", "#859900", "#b58900", "#268bd2", "#d33682", "#2aa198",
             "#eee8d5", "#002b36", "#cb4b16", "#586e75", "#657b83", "#839496", "#6c71c4",
             "#93a1a1", "#fdf6e3"].map parse) 16,
         Call.g_signal_connect terminal "child-exited" Callback.on_child_exited window,
         Call.gtk_window_present window]
        front := by
  refine ⟨_, frontCalls parse app w.last, _, w.last + 1, w.last + 3, w.last + 4, w.last + 5,
    activate_afterSpawn parse app user_data w, newCalls_activate parse app w, rfl, ?_, ?_, ?_,
    ?_, ?_, ?_, ?_, ?_⟩
  · simp [frontCalls, isSpawn]
  · simp [spawnRequests]
  · simp [createdWindows, frontCalls]
  · simp [createdScrolledWindows, frontCalls]
  · simp [createdTerminals, frontCalls]
  · simp [createdFontDescriptions, frontCalls]
  · simp [setColorsCalls, frontCalls]
  · unfold frontCalls
    repeat (first
      | exact List.Sublist.slnil
      | exact List.nil_sublist _
      | apply List.Sublist.cons₂
      | apply List.Sublist.cons)

theorem parseHexColor_isSome (s : String) (h : isHexColor s = true) :
    (parseHexColor s).isSome = true := by
  unfold parseHexColor
  rw [if_pos h]
  unfold isHexColor at h
  split at h
  · rename_i heq
    rw [heq]
    rfl
  · exact absurd h (by decide)

/-- C8. Palette configuration: `setup_terminal_colors` makes one toolkit
call, a set-colors call on the terminal with palette size 16, whose palette
is, entry by entry, the parse of the documented list of 16 strings, with
foreground the parse of `#839496` and background the parse of `#002b36`; all
18 strings are well-formed `#rrggbb` colours, so with a parser that accepts
every well-formed `#rrggbb` colour no parse takes the failure branch. -/
theorem setup_terminal_colors_palette (parse : String → Option GdkRGBA) (terminal : Nat)
    (w : World) :
    newCalls w (setup_terminal_colors parse terminal w) =
      [Call.vte_terminal_set_colors terminal (parse "#839496") (parse "#002b36")
        (["#073642", "#dc322f", "#859900", "#b58900", "#268bd2", "#d33682", "#2aa198",
          "#eee8d5", "#002b36", "#cb4b16", "#586e75", "#657b83", "#839496", "#6c71c4",
          "#93a1a1", "#fdf6e3"].map parse) 16] ∧
    (setColorsCalls (newCalls w (setup_terminal_colors parse terminal w)) terminal).length = 1 ∧
    (["#073642", "#dc322f", "#859900", "#b58900", "#268bd2", "#d33682", "#2aa198",
      "#eee8d5", "#002b36", "#cb4b16", "#586e75", "#657b83", "#839496", "#6c71c4",
      "#93a1a1", "#fdf6e3"].map parse).length = 16 ∧
    (["#839496", "#002b36", "#073642", "#dc322f", "#859900", "#b58900", "#268bd2", "#d33682",
      "#2aa198", "#eee8d5", "#002b36", "#cb4b16", "#586e75", "#657b83", "#839496", "#6c71c4",
      "#93a1a1", "#fdf6e3"].all isHexColor = true) ∧
    ((∀ s : String, isHexColor s = true → (parse s).isSome = true) →
      (["#839496", "#002b36", "#073642", "#dc322f", "#859900", "#b58900", "#268bd2", "#d33682",
        "#2aa198", "#eee8d5", "#002b36", "#cb4b16", "#586e75", "#657b83", "#839496", "#6c71c4",
        "#93a1a1", "#fdf6e3"].all (fun s => (parse s).isSome) = true)) := by
  have hc := newCalls_append w (setup_terminal_colors parse terminal w)
    [Call.vte_terminal_set_colors terminal (parse "#839496") (parse "#002b36")
      (["#073642", "#dc322f", "#859900", "#b58900", "#268bd2", "#d33682", "#2aa198",
        "#eee8d5", "#002b36", "#cb4b16", "#586e75", "#657b83", "#839496", "#6c71c4",
        "#93a1a1", "#fdf6e3"].map parse) 16]
    (by rw [setup_terminal_colors_eq]; rfl)
  have hall : ["#839496", "#002b36", "#073642", "#dc322f", "#859900", "#b58900", "#268bd2",
      "#d33682", "#2aa198", "#eee8d5", "#002b36", "#cb4b16", "#586e75", "#657b83", "#839496",
      "#6c71c4", "#93a1a1", "#fdf6e3"].all isHexColor = true := by decide
  refine ⟨hc, ?_, rfl, hall, ?_⟩
  · rw [hc]
    simp [setColorsCalls]
  · intro hparse
    rw [List.all_eq_true] at hall ⊢
    intro s hs
    exact hparse s (hall s hs)

/-- Witness of C8 with the reference `#rrggbb` parser: every one of the 18
parses succeeds, and the call carries the Solarized Dark colours. -/
theorem setup_terminal_colors_palette_witness :
    (["#839496", "#002b36", "#073642", "#dc322f", "#859900", "#b58900", "#268bd2", "#d33682",
      "#2aa198", "#eee8d5", "#002b36", "#cb4b16", "#586e75", "#657b83", "#839496", "#6c71c4",
      "#93a1a1", "#fdf6e3"].all (fun s => (parseHexColor s).isSome) = true) ∧
    newCalls (World.start [] "/root") (setup_terminal_colors parseHexColor 4 (World.start [] "/root")) =
      [Call.vte_terminal_set_colors 4 (some ⟨131, 148, 150⟩) (some ⟨0, 43, 54⟩)
        [some ⟨7, 54, 66⟩, some ⟨220, 50, 47⟩, some ⟨133, 153, 0⟩, some ⟨181, 137, 0⟩,
         some ⟨38, 139, 210⟩, some ⟨211, 54, 130⟩, some ⟨42, 161, 152⟩, some ⟨238, 232, 213⟩,
         some ⟨0, 43, 54⟩, some ⟨203, 75, 22⟩, some ⟨88, 110, 117⟩, some ⟨101, 123, 131⟩,
         some ⟨131, 148, 150⟩, some ⟨108, 113, 196⟩, some ⟨147, 161, 161⟩,
         some ⟨253, 246, 227⟩] 16] :=
  ⟨(setup_terminal_colors_palette parseHexColor 4 (World.start [] "/root")).2.2.2.2
      parseHexColor_isSome,
   by decide⟩

/-- C9. Actions and accelerators: one activation creates one window and one
terminal; it adds to the window's action map exactly two actions, created
with the names "copy" and "paste" and no parameter type; after it the
accelerators of "win.copy" are exactly `["<Control><Shift>c"]` and those of
"win.paste" exactly `["<Control><Shift>v"]`; the only handler it connects to
the activation of the copy action is `copy_text` with that terminal as data,
so that activating "copy" performs one copy-to-clipboard in text format on
that terminal, and likewise `paste_text` and one paste-clipboard on that
terminal for "paste". -/
theorem activate_actions (parse : String → Option GdkRGBA) (app user_data : Nat)
    (w : World) :
    ∃ (w' : World) (window terminal copy paste : Nat),
      activate parse app user_data w = some w' ∧
      createdWindows (newCalls w w') = [window] ∧
      createdTerminals (newCalls w w') = [terminal] ∧
      actionMap (newCalls w w') window = [copy, paste] ∧
      actionInfo (newCalls w w') copy = some ("copy", none) ∧
      actionInfo (newCalls w w') paste = some ("paste", none) ∧
      accelsFor w'.calls app "win.copy" = ["<Control><Shift>c"] ∧
      accelsFor w'.calls app "win.paste" = ["<Control><Shift>v"] ∧
      connections (newCalls w w') copy "activate" = [(Callback.copy_text, terminal)] ∧
      connections (newCalls w w') paste "activate" = [(Callback.paste_text, terminal)] ∧
      (∀ (v : World) (parameter : Nat),
        emitTo parse (Emission.action_activate copy parameter)
            (connections (newCalls w w') copy "activate") v =
          some { v with calls := v.calls ++
            [Call.vte_terminal_copy_clipboard_format terminal VTE_FORMAT_TEXT] }) ∧
      (∀ (v : World) (parameter : Nat),
        emitTo parse (Emission.action_activate paste parameter)
            (connections (newCalls w w') paste "activate") v =
          some { v with calls := v.calls ++ [Call.vte_terminal_paste_clipboard terminal] }) := by
  have hcopy : connections (frontCalls parse app w.last ++
      [Call.vte_terminal_spawn_async (w.last + 4) VTE_PTY_DEFAULT w.home (w.last + 7 + 2)
        (w.last + 7 + 4 + w.environ.length) G_SPAWN_SEARCH_PATH none 0 none (-1) 0
        (some Callback.spawn_callback) (w.last + 7 + 1)]) (w.last + 6) "activate"
      = [(Callback.copy_text, w.last + 4)] := by
    simp [connections, frontCalls]
  have hpaste : connections (frontCalls parse app w.last ++
      [Call.vte_terminal_spawn_async (w.last + 4) VTE_PTY_DEFAULT w.home (w.last + 7 + 2)
        (w.last + 7 + 4 + w.environ.length) G_SPAWN_SEARCH_PATH none 0 none (-1) 0
        (some Callback.spawn_callback) (w.last + 7 + 1)]) (w.last + 7) "activate"
      = [(Callback.paste_text, w.last + 4)] := by
    simp [connections, frontCalls]
  refine ⟨_, w.last + 1, w.last + 4, w.last + 6, w.last + 7,
    activate_afterSpawn parse app user_data w, ?_, ?_, ?_, ?_, ?_, ?_, ?_, ?_, ?_, ?_, ?_⟩
  · rw [newCalls_activate]
    simp [createdWindows, frontCalls]
  · rw [newCalls_activate]
    simp [createdTerminals, frontCalls]
  · rw [newCalls_activate]
    simp [actionMap, frontCalls]
  · rw [newCalls_activate]
    simp [actionInfo, frontCalls]
  · rw [newCalls_activate]
    simp [actionInfo, frontCalls]
  · simp [accelsFor, afterSpawn, beforeSpawn, frontCalls, List.foldl_append]
  · simp [accelsFor, afterSpawn, beforeSpawn, frontCalls, List.foldl_append]
  · rw [newCalls_activate]
    exact hcopy
  · rw [newCalls_activate]
    exact hpaste
  · intro v parameter
    rw [newCalls_activate, hcopy]
    rfl
  · intro v parameter
    rw [newCalls_activate, hpaste]
    rfl

/-- C10. Lifecycle on child exit: `on_child_exited` adds one call, the
closing of the window given as user data, and nothing else, whatever the
exit status; and the only handler an activation connects to child-exited of
the terminal it creates is `on_child_exited` with the window it creates as
data, so that a child exit with any status closes that window and does
nothing more. -/
theorem on_child_exited_closes (parse : String → Option GdkRGBA) (app user_data : Nat)
    (w : World) :
    (∀ (terminal : Nat) (status : Int) (window : Nat) (v : World),
      on_child_exited terminal status window v =
        { v with calls := v.calls ++ [Call.gtk_window_close window] }) ∧
    (∀ (terminal : Nat) (status status' : Int) (window : Nat) (v : World),
      on_child_exited terminal status window v = on_child_exited terminal status' window v) ∧
    ∃ (w' : World) (window terminal : Nat),
      activate parse app user_data w = some w' ∧
      createdWindows (newCalls w w') = [window] ∧
      createdTerminals (newCalls w w') = [terminal] ∧
      connections (newCalls w w') terminal "child-exited" =
        [(Callback.on_child_exited, window)] ∧
      ∀ (status : Int) (v : World),
        emitTo parse (Emission.child_exited terminal status)
            (connections (newCalls w w') terminal "child-exited") v =
          some { v with calls := v.calls ++ [Call.gtk_window_close window] } := by
  have hconn : connections (frontCalls parse app w.last ++
      [Call.vte_terminal_spawn_async (w.last + 4) VTE_PTY_DEFAULT w.home (w.last + 7 + 2)
        (w.last + 7 + 4 + w.environ.length) G_SPAWN_SEARCH_PATH none 0 none (-1) 0
        (some Callback.spawn_callback) (w.last + 7 + 1)]) (w.last + 4) "child-exited"
      = [(Callback.on_child_exited, w.last + 1)] := by
    simp [connections, frontCalls]
  refine ⟨fun _ _ _ _ => rfl, fun _ _ _ _ _ => rfl, _, w.last + 1, w.last + 4,
    activate_afterSpawn parse app user_data w, ?_, ?_, ?_, ?_⟩
  · rw [newCalls_activate]
    simp [createdWindows, frontCalls]
  · rw [newCalls_activate]
    simp [createdTerminals, frontCalls]
  · rw [newCalls_activate]
    exact hconn
  · intro status v
    rw [newCalls_activate, hconn]
    rfl

theorem setenvList_mem (es : List (String × String)) (n v : String) :
    (n, v) ∈ setenvList es n v true := by
  induction es with
  | nil => simp [setenvList]
  | cons e es ih =>
    obtain ⟨m, x⟩ := e
    by_cases h : m = n
    · simp [setenvList, h]
    · simp [setenvList, h, ih]

theorem setenvList_lookup (es : List (String × String)) (n v : String) :
    List.lookup n (setenvList es n v true) = some v := by
  induction es with
  | nil => simp [setenvList, List.lookup]
  | cons e es ih =>
    obtain ⟨m, x⟩ := e
    by_cases h : m = n
    · simp [setenvList, h, List.lookup]
    · have h2 : (n == m) = false := by
        simp only [beq_eq_false_iff_ne, ne_eq]
        exact fun hh => h hh.symm
      simp [setenvList, h, List.lookup, h2, ih]

theorem readEach_heap (cells : List Nat) (w w' : World) (h : w.heap = w'.heap) :
    readEach cells w = readEach cells w' := by
  induction cells with
  | nil => rfl
  | cons p ps ih => simp only [readEach, load, h, ih]

theorem readStrv_heap (p : Nat) (w w' : World) (h : w.heap = w'.heap) :
    readStrv p w = readStrv p w' := by
  simp only [readStrv, load, h, readEach_heap _ w w' h]

theorem readStrv_envp_afterSpawn (terminal window : Nat) (w : World) :
    readStrv (w.last + 4 + w.environ.length) (afterSpawn terminal window w) =
      some (w.environ.map envEntry) := by
  have h := requestEnvp_afterSpawn terminal window w
  rw [requestEnvp, theRequest_afterSpawn] at h
  exact h

theorem main_eq (parse : String → Option GdkRGBA) (argc : Int) (argv : List String)
    (environ : List (String × String)) (home : String) :
    main parse argc argv (World.start environ home) =
      some (afterMain parse argc argv environ home) := by
  simp [main, g_setenv, construct, call, g_application_run, connections, World.start, emitTo,
    invoke, activate_afterSpawn, afterMain]

theorem requestEnvp_afterMain (parse : String → Option GdkRGBA) (argc : Int)
    (argv : List String) (environ : List (String × String)) (home : String) :
    requestEnvp (World.start environ home) (afterMain parse argc argv environ home) =
      some ((setenvList environ "GDK_RENDERING" "cairo" true).map envEntry) := by
  have hreq : theRequest (World.start environ home) (afterMain parse argc argv environ home) =
      some ⟨5, VTE_PTY_DEFAULT, home, 1 + 7 + 2,
        1 + 7 + 4 + (setenvList environ "GDK_RENDERING" "cairo" true).length,
        G_SPAWN_SEARCH_PATH, none, 0, none, -1, 0, some Callback.spawn_callback, 1 + 7 + 1⟩ := by
    simp [theRequest, newCalls, World.start, afterMain, call, afterSpawn, beforeSpawn,
      frontCalls, spawnRequests]
  rw [requestEnvp, hreq]
  simp only [Option.some_bind]
  unfold afterMain
  refine Eq.trans (readStrv_heap _ _ (afterSpawn 5 2 (beforeSpawn parse 1 _)) rfl) ?_
  exact readStrv_envp_afterSpawn 5 2 _

/-- C7. Environment capture: the `envp` vector of the spawn request that
`spawn_shell` issues holds one `NAME=value` string for every entry of the
process environment at that moment, in order, and nothing else; and in a run
of `main` from process start with its one activation, it is the environment
after `GDK_RENDERING` was set to `cairo` with overwrite: it contains
`GDK_RENDERING=cairo`, and `cairo` is the value of `GDK_RENDERING` in the
environment whatever the variable held before. -/
theorem spawn_envp_captures_environment (terminal window : Nat) (w : World)
    (parse : String → Option GdkRGBA) (argc : Int) (argv : List String)
    (environ : List (String × String)) (home : String) :
    (spawn_shell terminal window w).bind (requestEnvp w) = some (w.environ.map envEntry) ∧
    (main parse argc argv (World.start environ home)).bind
        (requestEnvp (World.start environ home)) =
      some ((setenvList environ "GDK_RENDERING" "cairo" true).map envEntry) ∧
    "GDK_RENDERING=cairo" ∈ (setenvList environ "GDK_RENDERING" "cairo" true).map envEntry ∧
    (main parse argc argv (World.start environ home)).bind (g_getenv "GDK_RENDERING") =
      some "cairo" := by
  refine ⟨?_, ?_, ?_, ?_⟩
  · rw [spawn_shell_afterSpawn]
    exact requestEnvp_afterSpawn terminal window w
  · rw [main_eq]
    exact requestEnvp_afterMain parse argc argv environ home
  · exact List.mem_map.2 ⟨("GDK_RENDERING", "cairo"), setenvList_mem _ _ _, by decide⟩
  · rw [main_eq]
    simp only [Option.some_bind, g_getenv, afterMain, call, afterSpawn, beforeSpawn]
    exact setenvList_lookup _ _ _

theorem load_record (n window : Nat) (shell : String) (es : List String)
    (front h : List (Nat × Obj)) (w : World)
    (hfront : ∀ e ∈ front, n + 4 + es.length < e.1)
    (hw : w.heap = front ++ (ctxBlocks n window shell es ++ h)) :
    load (n + 1) w = some (Obj.spawnData window (n + 2) (n + 4 + es.length)) := by
  have hL : heapLoad (front ++ (ctxBlocks n window shell es ++ h)) (n + 1)
      = heapLoad (ctxBlocks n window shell es ++ h) (n + 1) :=
    heapLoad_append _ _ _ (fun e he => by have := hfront e he; omega)
  rw [load, hw, hL]
  simp (disch := omega) only [ctxBlocks, List.cons_append, List.append_assoc, List.nil_append,
    heapLoad_cons_eq, heapLoad_cons_ne, heapLoad_strBlocks]

theorem spawn_callback_success (n window : Nat) (shell : String) (es : List String)
    (front h : List (Nat × Obj)) (w : World) (terminal : Nat) (pid : Int)
    (hfront : ∀ e ∈ front, n + 4 + es.length < e.1)
    (hw : w.heap = front ++ (ctxBlocks n window shell es ++ h)) :
    spawn_callback terminal pid 0 (n + 1) w =
      some { w with
        heap := front ++ h
        freed := w.freed ++
          ([n + 3, n + 2] ++ List.range' (n + 4) es.length ++ [n + 4 + es.length, n + 1]) } := by
  have hr := release_eq n window shell es front h w hfront hw
  simp only [spawn_callback, ne_eq, not_true_eq_false, if_false, Option.some_bind]
  exact hr

theorem spawn_callback_failed (n window : Nat) (shell : String) (es : List String)
    (front h : List (Nat × Obj)) (w : World) (terminal : Nat) (pid : Int) (error : Nat)
    (message : String)
    (hfront : ∀ e ∈ front, n + 4 + es.length < e.1)
    (hw : w.heap = front ++ (ctxBlocks n window shell es ++ h))
    (herr : error ≠ 0) (hmsg : load error w = some (Obj.gerror message)) :
    spawn_callback terminal pid error (n + 1) w =
      some { w with
        heap := front ++ h
        freed := w.freed ++
          ([n + 3, n + 2] ++ List.range' (n + 4) es.length ++ [n + 4 + es.length, n + 1])
        stderr := w.stderr ++ ("Failed to spawn shell: " ++ message ++ "\n")
        calls := w.calls ++ [Call.gtk_window_close window] } := by
  have hrec := load_record n window shell es front h
    (fprintf_stderr ("Failed to spawn shell: " ++ message ++ "\n") w) hfront hw
  have hr := release_eq n window shell es front h
    (call (Call.gtk_window_close window)
      (fprintf_stderr ("Failed to spawn shell: " ++ message ++ "\n") w)) hfront hw
  simp only [spawn_callback, ne_eq, herr, not_false_eq_true, if_true, GError_message, hmsg,
    Option.some_bind, SpawnData_window, hrec]
  exact hr

theorem strBlocks_keys (es : List String) :
    ∀ n : Nat, (strBlocks es n).map Prod.fst = (List.range' (n + 1) es.length).reverse := by
  induction es with
  | nil => intro n; rfl
  | cons s es ih =>
    intro n
    simp only [strBlocks, List.map_append, ih, List.map_cons, List.map_nil, List.length_cons,
      List.range'_succ, List.reverse_cons]

/-- C3. Spawn failure handling in `spawn_callback`: for the context that
`spawn_shell` creates for a window, a completion that carries a non-null
error with message `m` makes the callback return after writing exactly
`"Failed to spawn shell: " ++ m ++ "\n"` to standard error and issuing one
toolkit call, the closing of that same window. -/
theorem spawn_callback_reports_failure (terminal window : Nat) (pid : Int) (m : String)
    (w : World) :
    ∃ (w1 : World) (r : SpawnRequest) (w2 : World),
      spawn_shell terminal window w = some w1 ∧
      theRequest w w1 = some r ∧
      (completion_error (some m) w1).1 ≠ 0 ∧
      GError_message (completion_error (some m) w1).1 (completion_error (some m) w1).2 = some m ∧
      spawn_callback terminal pid (completion_error (some m) w1).1 r.user_data
        (completion_error (some m) w1).2 = some w2 ∧
      w2.stderr = (completion_error (some m) w1).2.stderr ++
        ("Failed to spawn shell: " ++ m ++ "\n") ∧
      newCalls (completion_error (some m) w1).2 w2 = [Call.gtk_window_close window] := by
  have hcb := spawn_callback_failed w.last window (shellPath w) (w.environ.map envEntry)
    [(w.last + 4 + w.environ.length + 1, Obj.gerror m)] w.heap
    (completion_error (some m) (afterSpawn terminal window w)).2 terminal pid
    (w.last + 4 + w.environ.length + 1) m
    (fun e he => by
      simp only [List.mem_singleton] at he
      subst he
      simp only [List.length_map]
      omega)
    (by simp [completion_error, alloc, afterSpawn])
    (by omega)
    (by simp [completion_error, alloc, afterSpawn, load, heapLoad])
  refine ⟨afterSpawn terminal window w, _, _, spawn_shell_afterSpawn terminal window w,
    theRequest_afterSpawn terminal window w, ?_, ?_, hcb, rfl, ?_⟩
  · simp [completion_error, alloc]
  · simp [completion_error, alloc, GError_message, load, heapLoad]
  · exact newCalls_append _ _ _ rfl

theorem ctxBlocks_keys (n window : Nat) (shell : String) (es : List String) :
    (ctxBlocks n window shell es).map Prod.fst =
      (n + 4 + es.length) :: ((List.range' (n + 4) es.length).reverse ++ [n + 3, n + 2, n + 1]) := by
  simp only [ctxBlocks, List.map_cons, List.map_append, strBlocks_keys, List.map_nil]

theorem released_perm (n window : Nat) (shell : String) (es : List String) :
    ([n + 3, n + 2] ++ List.range' (n + 4) es.length ++ [n + 4 + es.length, n + 1]).Perm
      ((ctxBlocks n window shell es).map Prod.fst) := by
  rw [ctxBlocks_keys, List.perm_iff_count]
  intro a
  simp only [List.count_append, List.count_cons, List.count_nil, List.count_reverse]
  omega

theorem released_nodup (n : Nat) (es : List String) :
    ([n + 3, n + 2] ++ List.range' (n + 4) es.length ++ [n + 4 + es.length, n + 1]).Nodup := by
  have hr : (List.range' (n + 4) es.length).Nodup := List.nodup_range' _ _
  simp only [List.nodup_append, List.nodup_cons, List.nodup_nil, hr, List.Disjoint,
    List.mem_append, List.mem_cons, List.mem_range'_1, List.mem_singleton, List.not_mem_nil]
  refine ⟨⟨⟨?_, ?_⟩, trivial, ?_⟩, ⟨?_, ?_⟩, ?_⟩
  all_goals (try simp only [not_false_eq_true, or_false, and_true])
  all_goals (try intro a)
  all_goals (try omega)

/-- C4. Single-use spawn context: `spawn_shell` allocates the blocks of one
context (record, argument vector, copy of the shell path, environment vector
and its strings) on top of the heap and releases nothing; for a completion
with or without an error, the one invocation of `spawn_callback` on that
context returns without a fault (no read or release of a block that is not
live), and the addresses it releases are, without repetition, exactly the
addresses of those blocks, the record last; the error object is not among
them and stays live, and the heap is left as it was before `spawn_shell`. -/
theorem spawn_context_released_once (terminal window : Nat) (pid : Int)
    (failure : Option String) (w : World) :
    ∃ (w1 : World) (r : SpawnRequest) (blocks : List (Nat × Obj)) (argv0 : Nat) (w2 : World)
      (released : List Nat),
      spawn_shell terminal window w = some w1 ∧
      theRequest w w1 = some r ∧
      w1.heap = blocks ++ w.heap ∧
      w1.freed = w.freed ∧
      load r.user_data w1 = some (Obj.spawnData window r.argv r.envv) ∧
      requestArgvCells w w1 = some [argv0, 0] ∧
      r.user_data ∈ blocks.map Prod.fst ∧
      r.argv ∈ blocks.map Prod.fst ∧
      argv0 ∈ blocks.map Prod.fst ∧
      r.envv ∈ blocks.map Prod.fst ∧
      spawn_callback terminal pid (completion_error failure w1).1 r.user_data
        (completion_error failure w1).2 = some w2 ∧
      w2.freed = w.freed ++ released ∧
      released.Nodup ∧
      released.Perm (blocks.map Prod.fst) ∧
      released.getLast? = some r.user_data ∧
      (completion_error failure w1).1 ∉ released ∧
      w2.heap =
        (match failure with
          | none => w.heap
          | some m => ((completion_error failure w1).1, Obj.gerror m) :: w.heap) := by
  have hmem : ∀ a : Nat,
      a ∈ [w.last + 3, w.last + 2] ++ List.range' (w.last + 4) (w.environ.map envEntry).length ++
        [w.last + 4 + (w.environ.map envEntry).length, w.last + 1] →
      a ∈ (ctxBlocks w.last window (shellPath w) (w.environ.map envEntry)).map Prod.fst :=
    fun a ha => (released_perm w.last window (shellPath w) (w.environ.map envEntry)).mem_iff.1 ha
  have hpos : ∀ a : Nat,
      a ∈ [w.last + 3, w.last + 2] ++ List.range' (w.last + 4) (w.environ.map envEntry).length ++
        [w.last + 4 + (w.environ.map envEntry).length, w.last + 1] →
      w.last + 1 ≤ a ∧ a ≤ w.last + 4 + (w.environ.map envEntry).length := by
    intro a ha
    simp only [List.mem_append, List.mem_cons, List.mem_range'_1, List.mem_singleton,
      List.not_mem_nil, or_false] at ha
    omega
  have hlast : ([w.last + 3, w.last + 2] ++
      List.range' (w.last + 4) (w.environ.map envEntry).length ++
      [w.last + 4 + (w.environ.map envEntry).length, w.last + 1]).getLast? = some (w.last + 1) := by
    rw [show [w.last + 4 + (w.environ.map envEntry).length, w.last + 1]
      = [w.last + 4 + (w.environ.map envEntry).length] ++ [w.last + 1] from rfl,
      ← List.append_assoc, List.getLast?_append]
    rfl
  refine ⟨afterSpawn terminal window w, _,
    ctxBlocks w.last window (shellPath w) (w.environ.map envEntry), w.last + 3, ?_,
    [w.last + 3, w.last + 2] ++ List.range' (w.last + 4) (w.environ.map envEntry).length ++
      [w.last + 4 + (w.environ.map envEntry).length, w.last + 1],
    spawn_shell_afterSpawn terminal window w, theRequest_afterSpawn terminal window w, rfl, rfl,
    ?_, requestArgvCells_afterSpawn terminal window w, ?_, ?_, ?_, ?_, ?_, ?_,
    released_nodup _ _, released_perm _ _ _ _, hlast, ?_, ?_⟩
  case refine_1 =>
    exact
      { (completion_error failure (afterSpawn terminal window w)).2 with
        heap := (match failure with
          | none => w.heap
          | some m =>
            ((completion_error failure (afterSpawn terminal window w)).1, Obj.gerror m) :: w.heap)
        freed := w.freed ++ ([w.last + 3, w.last + 2] ++
          List.range' (w.last + 4) (w.environ.map envEntry).length ++
          [w.last + 4 + (w.environ.map envEntry).length, w.last + 1])
        stderr := (match failure with
          | none => w.stderr
          | some m => w.stderr ++ ("Failed to spawn shell: " ++ m ++ "\n"))
        calls := (match failure with
          | none => (afterSpawn terminal window w).calls
          | some _ => (afterSpawn terminal window w).calls ++ [Call.gtk_window_close window]) }
  · simp (disch := omega) only [load, afterSpawn, ctxBlocks, List.cons_append, heapLoad_cons_ne,
      heapLoad_strBlocks, heapLoad_cons_eq, List.append_assoc, List.length_map]
  · exact hmem _ (by simp)
  · exact hmem _ (by simp)
  · exact hmem _ (by simp)
  · exact hmem _ (by simp)
  · cases failure with
    | none =>
      exact spawn_callback_success w.last window (shellPath w) (w.environ.map envEntry) []
        w.heap (afterSpawn terminal window w) terminal pid (by simp) (by simp [afterSpawn])
    | some m =>
      exact spawn_callback_failed w.last window (shellPath w) (w.environ.map envEntry)
        [(w.last + 4 + w.environ.length + 1, Obj.gerror m)] w.heap
        (completion_error (some m) (afterSpawn terminal window w)).2 terminal pid
        (w.last + 4 + w.environ.length + 1) m
        (fun e he => by
          simp only [List.mem_singleton] at he
          subst he
          simp only [List.length_map]
          omega)
        (by simp [completion_error, alloc, afterSpawn])
        (by omega)
        (by simp [completion_error, alloc, afterSpawn, load, heapLoad])
  · rfl
  · intro hin
    have := hpos _ hin
    cases failure with
    | none => simp [completion_error] at this
    | some m =>
      simp only [completion_error, alloc, afterSpawn, List.length_map] at this
      omega
  · rfl

end LokiTerminal
